import Mathlib

/-!
Shallow embedding of the quantitative pricing kernel of the
Options-Pricing-and-Analysis-Platform repository:

* `backend/app/models/black_scholes.py` — class `BlackScholesModel`
* `backend/app/models/greeks.py` — class `Greeks`
* `backend/app/services/volatility.py` — `VolatilityService.calculate_implied_volatility`

Python floats are modelled as real numbers.  The external SciPy functions
`norm.cdf` and `norm.pdf` are abstracted as function parameters `Phi` and
`npdf`; the external root finder `scipy.optimize.brentq` is abstracted as a
function parameter `brentq` whose `none` result models the exception that the
Python call raises on failure.  The `ValueError` raised by
`BlackScholesModel.price` is modelled with `Except`.  The `option_type`
argument stays a `String`, because the code compares strings — sometimes
after lowercasing, sometimes not.  The Python method `str.lower` is embedded
as `pyLower` (ASCII lowercasing, which agrees with CPython on the strings the
code compares against).
-/

noncomputable section

namespace OptionsPlatform

/-- Embedding of the Python string method `lower` used by the code: lowercase
every character.  On the ASCII strings involved here this is exactly the
CPython behaviour. -/
def pyLower (s : String) : String := ⟨s.data.map Char.toLower⟩

/-- Embedding of the class `BlackScholesModel`: the five scalar attributes set
by its `__init__`. -/
structure BlackScholesModel where
  S : ℝ
  K : ℝ
  T : ℝ
  r : ℝ
  sigma : ℝ

namespace BlackScholesModel

/-- Embedding of `BlackScholesModel._d1`. -/
def d1 (m : BlackScholesModel) : ℝ :=
  if m.T ≤ 0 then 0
  else (Real.log (m.S / m.K) + (m.r + 0.5 * m.sigma ^ 2) * m.T) / (m.sigma * Real.sqrt m.T)

/-- Embedding of `BlackScholesModel._d2`. -/
def d2 (m : BlackScholesModel) : ℝ :=
  if m.T ≤ 0 then 0
  else m.d1 - m.sigma * Real.sqrt m.T

/-- Embedding of `BlackScholesModel.call_price`; `Phi` abstracts
`scipy.stats.norm.cdf`. -/
def call_price (Phi : ℝ → ℝ) (m : BlackScholesModel) : ℝ :=
  if m.T ≤ 0 then max 0 (m.S - m.K)
  else m.S * Phi m.d1 - m.K * Real.exp (-m.r * m.T) * Phi m.d2

/-- Embedding of `BlackScholesModel.put_price`; `Phi` abstracts
`scipy.stats.norm.cdf`. -/
def put_price (Phi : ℝ → ℝ) (m : BlackScholesModel) : ℝ :=
  if m.T ≤ 0 then max 0 (m.K - m.S)
  else m.K * Real.exp (-m.r * m.T) * Phi (-m.d2) - m.S * Phi (-m.d1)

/-- Embedding of `BlackScholesModel.price`: dispatch on the lowercased
`option_type`, raising `ValueError` (modelled as `Except.error`) otherwise. -/
def price (Phi : ℝ → ℝ) (m : BlackScholesModel) (option_type : String) : Except String ℝ :=
  if pyLower option_type = "call" then .ok (m.call_price Phi)
  else if pyLower option_type = "put" then .ok (m.put_price Phi)
  else .error "option_type must be call or put"

/-- Embedding of `BlackScholesModel.get_d1_d2`. -/
def get_d1_d2 (m : BlackScholesModel) : ℝ × ℝ :=
  (m.d1, m.d2)

end BlackScholesModel

/-- Embedding of the class `Greeks`: the six attributes set by its
`__init__`.  The constructor is embedded as `Greeks.make` below, which
performs the lowercasing that `__init__` applies to `option_type`. -/
structure Greeks where
  S : ℝ
  K : ℝ
  T : ℝ
  r : ℝ
  sigma : ℝ
  option_type : String

/-- Embedding of `Greeks.__init__`: stores the scalars and the lowercased
`option_type`. -/
def Greeks.make (S K T r sigma : ℝ) (option_type : String) : Greeks :=
  ⟨S, K, T, r, sigma, pyLower option_type⟩

namespace Greeks

/-- Embedding of `Greeks._d1`. -/
def d1 (g : Greeks) : ℝ :=
  if g.T ≤ 0 then 0
  else (Real.log (g.S / g.K) + (g.r + 0.5 * g.sigma ^ 2) * g.T) / (g.sigma * Real.sqrt g.T)

/-- Embedding of `Greeks._d2`. -/
def d2 (g : Greeks) : ℝ :=
  if g.T ≤ 0 then 0
  else g.d1 - g.sigma * Real.sqrt g.T

/-- Embedding of `Greeks.delta`; `Phi` abstracts `scipy.stats.norm.cdf`. -/
def delta (Phi : ℝ → ℝ) (g : Greeks) : ℝ :=
  if g.T ≤ 0 then
    if g.option_type = "call" then (if g.S > g.K then 1 else 0)
    else (if g.S < g.K then -1 else 0)
  else
    if g.option_type = "call" then Phi g.d1 else Phi g.d1 - 1

/-- Embedding of `Greeks.gamma`; `npdf` abstracts `scipy.stats.norm.pdf`. -/
def gamma (npdf : ℝ → ℝ) (g : Greeks) : ℝ :=
  if g.T ≤ 0 then 0
  else npdf g.d1 / (g.S * g.sigma * Real.sqrt g.T)

/-- Embedding of `Greeks.theta` (per-day convention: annual theta divided
by 365). -/
def theta (Phi npdf : ℝ → ℝ) (g : Greeks) : ℝ :=
  if g.T ≤ 0 then 0
  else
    let term1 := -(g.S * npdf g.d1 * g.sigma) / (2 * Real.sqrt g.T)
    let theta_annual :=
      if g.option_type = "call" then
        term1 - g.r * g.K * Real.exp (-g.r * g.T) * Phi g.d2
      else
        term1 + g.r * g.K * Real.exp (-g.r * g.T) * Phi (-g.d2)
    theta_annual / 365

/-- Embedding of `Greeks.vega` (per 1% convention: the decimal vega divided
by 100). -/
def vega (npdf : ℝ → ℝ) (g : Greeks) : ℝ :=
  if g.T ≤ 0 then 0
  else g.S * npdf g.d1 * Real.sqrt g.T / 100

/-- Embedding of `Greeks.rho` (per 1% convention: the decimal rho divided
by 100). -/
def rho (Phi : ℝ → ℝ) (g : Greeks) : ℝ :=
  if g.T ≤ 0 then 0
  else
    (if g.option_type = "call" then g.K * g.T * Real.exp (-g.r * g.T) * Phi g.d2
     else -(g.K * g.T * Real.exp (-g.r * g.T)) * Phi (-g.d2)) / 100

end Greeks

/-- The dictionary returned by `Greeks.all_greeks`. -/
structure GreeksResult where
  delta : ℝ
  gamma : ℝ
  theta : ℝ
  vega : ℝ
  rho : ℝ

/-- Embedding of `Greeks.all_greeks`: all five Greeks at once. -/
def Greeks.all_greeks (Phi npdf : ℝ → ℝ) (g : Greeks) : GreeksResult :=
  ⟨g.delta Phi, g.gamma npdf, g.theta Phi npdf, g.vega npdf, g.rho Phi⟩

/-- Embedding of the `intrinsic_value` bound computed by
`VolatilityService.calculate_implied_volatility` (note: the string
comparison there is case-SENSITIVE — no lowercasing). -/
def intrinsic_value (option_type : String) (S K : ℝ) : ℝ :=
  if option_type = "call" then max 0 (S - K) else max 0 (K - S)

/-- Embedding of the local `objective` function inside
`calculate_implied_volatility`: model price minus market price; `none`
models the non-finite value returned when pricing raises. -/
def objective (Phi : ℝ → ℝ) (market_price S K T r : ℝ) (option_type : String)
    (sigma : ℝ) : Option ℝ :=
  match (BlackScholesModel.mk S K T r sigma).price Phi option_type with
  | .ok model_price => some (model_price - market_price)
  | .error _ => none

/-- Embedding of the Newton-Raphson fallback loop inside
`calculate_implied_volatility`: fuel counts the remaining iterations of the
`for _ in range(max_iterations)` loop; a pricing exception (the `.error`
case) aborts with `None` via the enclosing `except`. -/
def newtonLoop (Phi npdf : ℝ → ℝ) (market_price S K T r : ℝ) (option_type : String)
    (tolerance : ℝ) : ℕ → ℝ → Option ℝ
  | 0, _ => none
  | n + 1, sigma =>
    match (BlackScholesModel.mk S K T r sigma).price Phi option_type with
    | .error _ => none
    | .ok model_price =>
      let price_diff := model_price - market_price
      if |price_diff| < tolerance then some sigma
      else
        let vega := (Greeks.make S K T r sigma option_type).vega npdf * 100
        if vega < 1e-10 then none
        else
          newtonLoop Phi npdf market_price S K T r option_type tolerance n
            (max 0.001 (min (sigma - price_diff / vega) 5.0))

/-- Embedding of the search portion of `calculate_implied_volatility`, after
the precondition guards have passed: try the bracketed finder
(`brentq(objective, 0.001, 5.0, maxiter=max_iterations, xtol=tolerance)`),
and on failure fall back to the Newton-Raphson loop started at
`initial_guess`. -/
def searchPhase (brentq : (ℝ → Option ℝ) → ℝ → ℝ → ℕ → ℝ → Option ℝ)
    (Phi npdf : ℝ → ℝ) (market_price S K T r : ℝ) (option_type : String)
    (initial_guess : ℝ) (max_iterations : ℕ) (tolerance : ℝ) : Option ℝ :=
  match brentq (objective Phi market_price S K T r option_type) 0.001 5.0
      max_iterations tolerance with
  | some implied_vol => some implied_vol
  | none =>
    newtonLoop Phi npdf market_price S K T r option_type tolerance
      max_iterations initial_guess

/-- Embedding of `VolatilityService.calculate_implied_volatility` with all
keyword parameters explicit. -/
def calculate_implied_volatility (brentq : (ℝ → Option ℝ) → ℝ → ℝ → ℕ → ℝ → Option ℝ)
    (Phi npdf : ℝ → ℝ) (market_price S K T r : ℝ) (option_type : String)
    (initial_guess : ℝ) (max_iterations : ℕ) (tolerance : ℝ) : Option ℝ :=
  if T ≤ 0 ∨ market_price ≤ 0 then none
  else if market_price < intrinsic_value option_type S K then none
  else
    searchPhase brentq Phi npdf market_price S K T r option_type
      initial_guess max_iterations tolerance

/-- Embedding of `VolatilityService.calculate_implied_volatility` at the
default keyword arguments of the Python signature:
`initial_guess=0.3`, `max_iterations=100`, `tolerance=1e-6`. -/
def calculate_implied_volatility_defaults
    (brentq : (ℝ → Option ℝ) → ℝ → ℝ → ℕ → ℝ → Option ℝ)
    (Phi npdf : ℝ → ℝ) (market_price S K T r : ℝ) (option_type : String) : Option ℝ :=
  calculate_implied_volatility brentq Phi npdf market_price S K T r option_type
    0.3 100 1e-6

end OptionsPlatform

namespace OptionsPlatform

/-- Claim C1: for every `S`, `K`, `r`, `sigma` and every `T ≤ 0`, the pricing
engine bypasses the Black-Scholes formula: `call_price` returns
`max 0 (S - K)`, `put_price` returns `max 0 (K - S)`, and both `d1` and `d2`
return the sentinel `0.0`. -/
theorem c1_expiry_intrinsic (Phi : ℝ → ℝ) (S K T r sigma : ℝ) (hT : T ≤ 0) :
    (BlackScholesModel.mk S K T r sigma).d1 = 0 ∧
    (BlackScholesModel.mk S K T r sigma).d2 = 0 ∧
    (BlackScholesModel.mk S K T r sigma).call_price Phi = max 0 (S - K) ∧
    (BlackScholesModel.mk S K T r sigma).put_price Phi = max 0 (K - S) := by
  refine ⟨?_, ?_, ?_, ?_⟩ <;>
    simp [BlackScholesModel.d1, BlackScholesModel.d2, BlackScholesModel.call_price,
      BlackScholesModel.put_price, hT]

/-- Witness for C1 at `S = 3`, `K = 1`, `T = 0`, `r = 0`, `sigma = 1`. -/
theorem c1_expiry_intrinsic_witness :
    (0 : ℝ) ≤ 0 ∧
    ((BlackScholesModel.mk 3 1 0 0 1).d1 = 0 ∧
     (BlackScholesModel.mk 3 1 0 0 1).d2 = 0 ∧
     (BlackScholesModel.mk 3 1 0 0 1).call_price (fun _ => 1 / 2) = max 0 (3 - 1) ∧
     (BlackScholesModel.mk 3 1 0 0 1).put_price (fun _ => 1 / 2) = max 0 (1 - 3)) :=
  ⟨le_refl 0, c1_expiry_intrinsic (fun _ => 1 / 2) 3 1 0 0 1 (le_refl 0)⟩

/-- Claim C2: for every `S > 0`, `K > 0`, `T > 0`, `r`, `sigma > 0`, the
pricing engine computes
`d1 = (ln(S/K) + (r + σ²/2)T)/(σ√T)`, `d2 = d1 - σ√T`,
`call = S·Φ(d1) - K·e^(-rT)·Φ(d2)` and `put = K·e^(-rT)·Φ(-d2) - S·Φ(-d1)`. -/
theorem c2_black_scholes_formulas (Phi : ℝ → ℝ) (S K T r sigma : ℝ)
    (hS : 0 < S) (hK : 0 < K) (hT : 0 < T) (hsigma : 0 < sigma) :
    (BlackScholesModel.mk S K T r sigma).d1 =
      (Real.log (S / K) + (r + 0.5 * sigma ^ 2) * T) / (sigma * Real.sqrt T) ∧
    (BlackScholesModel.mk S K T r sigma).d2 =
      (BlackScholesModel.mk S K T r sigma).d1 - sigma * Real.sqrt T ∧
    (BlackScholesModel.mk S K T r sigma).call_price Phi =
      S * Phi ((BlackScholesModel.mk S K T r sigma).d1) -
        K * Real.exp (-r * T) * Phi ((BlackScholesModel.mk S K T r sigma).d2) ∧
    (BlackScholesModel.mk S K T r sigma).put_price Phi =
      K * Real.exp (-r * T) * Phi (-(BlackScholesModel.mk S K T r sigma).d2) -
        S * Phi (-(BlackScholesModel.mk S K T r sigma).d1) := by
  have hT' : ¬ T ≤ 0 := not_le.mpr hT
  refine ⟨?_, ?_, ?_, ?_⟩ <;>
    simp [BlackScholesModel.d1, BlackScholesModel.d2, BlackScholesModel.call_price,
      BlackScholesModel.put_price, hT']

/-- Witness for C2 at `S = 1`, `K = 1`, `T = 1`, `r = 0`, `sigma = 1` with
`Phi` the constant `1/2`. -/
theorem c2_black_scholes_formulas_witness :
    ((0 : ℝ) < 1 ∧ (0 : ℝ) < 1 ∧ (0 : ℝ) < 1 ∧ (0 : ℝ) < 1) ∧
    ((BlackScholesModel.mk 1 1 1 0 1).d1 =
      (Real.log (1 / 1) + (0 + 0.5 * 1 ^ 2) * 1) / (1 * Real.sqrt 1) ∧
     (BlackScholesModel.mk 1 1 1 0 1).d2 =
      (BlackScholesModel.mk 1 1 1 0 1).d1 - 1 * Real.sqrt 1 ∧
     (BlackScholesModel.mk 1 1 1 0 1).call_price (fun _ => 1 / 2) =
      1 * (1 / 2) - 1 * Real.exp (-0 * 1) * (1 / 2) ∧
     (BlackScholesModel.mk 1 1 1 0 1).put_price (fun _ => 1 / 2) =
      1 * Real.exp (-0 * 1) * (1 / 2) - 1 * (1 / 2)) :=
  ⟨⟨one_pos, one_pos, one_pos, one_pos⟩,
   c2_black_scholes_formulas (fun _ => 1 / 2) 1 1 1 0 1 one_pos one_pos one_pos one_pos⟩

/-- Claim C5: for every well-formed parameter set with `T ≤ 0`, the Greeks
engine returns `gamma = 0`, `theta = 0`, `vega = 0`, `rho = 0` and the
degenerate delta: for a call `1` if `S > K` else `0`; for a put `-1` if
`S < K` else `0`. -/
theorem c5_greeks_expiry (Phi npdf : ℝ → ℝ) (S K T r sigma : ℝ) (option_type : String)
    (hT : T ≤ 0) :
    (Greeks.make S K T r sigma option_type).gamma npdf = 0 ∧
    (Greeks.make S K T r sigma option_type).theta Phi npdf = 0 ∧
    (Greeks.make S K T r sigma option_type).vega npdf = 0 ∧
    (Greeks.make S K T r sigma option_type).rho Phi = 0 ∧
    (Greeks.make S K T r sigma "call").delta Phi = (if S > K then 1 else 0) ∧
    (Greeks.make S K T r sigma "put").delta Phi = (if S < K then -1 else 0) := by
  have hc : pyLower "call" = "call" := by decide
  have hp : pyLower "put" = "put" := by decide
  have hpc : ("put" : String) ≠ "call" := by decide
  refine ⟨?_, ?_, ?_, ?_, ?_, ?_⟩ <;>
    simp [Greeks.make, Greeks.gamma, Greeks.theta, Greeks.vega, Greeks.rho, Greeks.delta,
      hT, hc, hp, hpc]

/-- Witness for C5 at `S = 2`, `K = 1`, `T = 0`, `r = 0`, `sigma = 1`. -/
theorem c5_greeks_expiry_witness :
    (0 : ℝ) ≤ 0 ∧
    ((Greeks.make 2 1 0 0 1 "call").gamma (fun _ => 0) = 0 ∧
     (Greeks.make 2 1 0 0 1 "call").theta (fun _ => 1 / 2) (fun _ => 0) = 0 ∧
     (Greeks.make 2 1 0 0 1 "call").vega (fun _ => 0) = 0 ∧
     (Greeks.make 2 1 0 0 1 "call").rho (fun _ => 1 / 2) = 0 ∧
     (Greeks.make 2 1 0 0 1 "call").delta (fun _ => 1 / 2) = (if (2 : ℝ) > 1 then 1 else 0) ∧
     (Greeks.make 2 1 0 0 1 "put").delta (fun _ => 1 / 2) = (if (2 : ℝ) < 1 then -1 else 0)) :=
  ⟨le_refl 0,
   c5_greeks_expiry (fun _ => 1 / 2) (fun _ => 0) 2 1 0 0 1 "call" (le_refl 0)⟩

/-- Claim C6: `BlackScholesModel.price` raises the invalid-option-type error
if and only if `option_type` is neither a call nor a put designation (after
lowercasing); for a valid side it returns the corresponding `call_price` or
`put_price` without raising. -/
theorem c6_price_dispatch (Phi : ℝ → ℝ) (m : BlackScholesModel) (option_type : String) :
    ((∃ e, m.price Phi option_type = .error e) ↔
      ¬(pyLower option_type = "call" ∨ pyLower option_type = "put")) ∧
    (pyLower option_type = "call" → m.price Phi option_type = .ok (m.call_price Phi)) ∧
    (pyLower option_type = "put" → m.price Phi option_type = .ok (m.put_price Phi)) := by
  have hcp : ("call" : String) ≠ "put" := by decide
  by_cases hc : pyLower option_type = "call"
  · simp [BlackScholesModel.price, hc, hcp]
  · by_cases hp : pyLower option_type = "put"
    · simp [BlackScholesModel.price, hc, hp]
    · simp [BlackScholesModel.price, hc, hp]

/-- Witness for C6: the mixed-case side `"Call"` is accepted and priced as a
call. -/
theorem c6_price_dispatch_witness :
    (BlackScholesModel.mk 1 1 1 0 1).price (fun _ => 1 / 2) "Call" =
      .ok ((BlackScholesModel.mk 1 1 1 0 1).call_price (fun _ => 1 / 2)) :=
  (c6_price_dispatch (fun _ => 1 / 2) (BlackScholesModel.mk 1 1 1 0 1) "Call").2.1
    (by decide)

/-- Claim C8: put-call parity — for every `S > 0`, `K > 0`, `T > 0`, `r`,
`sigma > 0`, and the normal CDF property `Φ(-x) = 1 - Φ(x)`,
`call_price - put_price` equals `S - K·e^(-rT)` within `1e-6`. -/
theorem c8_put_call_parity (Phi : ℝ → ℝ) (hPhi : ∀ x, Phi (-x) = 1 - Phi x)
    (S K T r sigma : ℝ) (hS : 0 < S) (hK : 0 < K) (hT : 0 < T) (hsigma : 0 < sigma) :
    |(BlackScholesModel.mk S K T r sigma).call_price Phi -
      (BlackScholesModel.mk S K T r sigma).put_price Phi -
      (S - K * Real.exp (-r * T))| ≤ 1e-6 := by
  have hT' : ¬ T ≤ 0 := not_le.mpr hT
  have key : (BlackScholesModel.mk S K T r sigma).call_price Phi -
      (BlackScholesModel.mk S K T r sigma).put_price Phi -
      (S - K * Real.exp (-r * T)) = 0 := by
    simp only [BlackScholesModel.call_price, BlackScholesModel.put_price, if_neg hT', hPhi]
    ring
  rw [key]
  norm_num

/-- Witness for C8 at `S = 1`, `K = 1`, `T = 1`, `r = 0`, `sigma = 1` with
`Phi` the constant `1/2`. -/
theorem c8_put_call_parity_witness :
    |(BlackScholesModel.mk 1 1 1 0 1).call_price (fun _ => 1 / 2) -
      (BlackScholesModel.mk 1 1 1 0 1).put_price (fun _ => 1 / 2) -
      (1 - 1 * Real.exp (-0 * 1))| ≤ 1e-6 :=
  c8_put_call_parity (fun _ => 1 / 2) (fun _ => by norm_num) 1 1 1 0 1
    one_pos one_pos one_pos one_pos

/-- Claim C10: the Greeks engine never raises an invalid-option-type error:
for any `option_type` whose lowercased form is not `"call"` (such as
`"xyz"`), `delta`, `theta` and `rho` silently compute the put formulas, and
`all_greeks` returns the full dictionary of values. -/
theorem c10_greeks_put_default (Phi npdf : ℝ → ℝ) (S K T r sigma : ℝ)
    (option_type : String) (hot : pyLower option_type ≠ "call") (hT : 0 < T) :
    (Greeks.make S K T r sigma option_type).delta Phi =
      Phi ((Greeks.make S K T r sigma option_type).d1) - 1 ∧
    (Greeks.make S K T r sigma option_type).theta Phi npdf =
      (-(S * npdf ((Greeks.make S K T r sigma option_type).d1) * sigma) /
          (2 * Real.sqrt T) +
        r * K * Real.exp (-r * T) * Phi (-(Greeks.make S K T r sigma option_type).d2)) /
        365 ∧
    (Greeks.make S K T r sigma option_type).rho Phi =
      -(K * T * Real.exp (-r * T)) * Phi (-(Greeks.make S K T r sigma option_type).d2) /
        100 ∧
    (Greeks.make S K T r sigma option_type).all_greeks Phi npdf =
      ⟨(Greeks.make S K T r sigma option_type).delta Phi,
       (Greeks.make S K T r sigma option_type).gamma npdf,
       (Greeks.make S K T r sigma option_type).theta Phi npdf,
       (Greeks.make S K T r sigma option_type).vega npdf,
       (Greeks.make S K T r sigma option_type).rho Phi⟩ := by
  have hT' : ¬ T ≤ 0 := not_le.mpr hT
  refine ⟨?_, ?_, ?_, rfl⟩ <;>
    simp [Greeks.make, Greeks.delta, Greeks.theta, Greeks.rho, hT', hot]

/-- Witness for C10 at `option_type = "xyz"`, `S = 1`, `K = 1`, `T = 1`,
`r = 0`, `sigma = 1`. -/
theorem c10_greeks_put_default_witness :
    (Greeks.make 1 1 1 0 1 "xyz").delta (fun _ => 1 / 2) =
      (fun _ : ℝ => (1 : ℝ) / 2) ((Greeks.make 1 1 1 0 1 "xyz").d1) - 1 ∧
    (Greeks.make 1 1 1 0 1 "xyz").theta (fun _ => 1 / 2) (fun _ => 0) =
      (-(1 * (fun _ : ℝ => (0 : ℝ)) ((Greeks.make 1 1 1 0 1 "xyz").d1) * 1) /
          (2 * Real.sqrt 1) +
        0 * 1 * Real.exp (-0 * 1) *
          (fun _ : ℝ => (1 : ℝ) / 2) (-(Greeks.make 1 1 1 0 1 "xyz").d2)) / 365 ∧
    (Greeks.make 1 1 1 0 1 "xyz").rho (fun _ => 1 / 2) =
      -(1 * 1 * Real.exp (-0 * 1)) *
        (fun _ : ℝ => (1 : ℝ) / 2) (-(Greeks.make 1 1 1 0 1 "xyz").d2) / 100 ∧
    (Greeks.make 1 1 1 0 1 "xyz").all_greeks (fun _ => 1 / 2) (fun _ => 0) =
      ⟨(Greeks.make 1 1 1 0 1 "xyz").delta (fun _ => 1 / 2),
       (Greeks.make 1 1 1 0 1 "xyz").gamma (fun _ => 0),
       (Greeks.make 1 1 1 0 1 "xyz").theta (fun _ => 1 / 2) (fun _ => 0),
       (Greeks.make 1 1 1 0 1 "xyz").vega (fun _ => 0),
       (Greeks.make 1 1 1 0 1 "xyz").rho (fun _ => 1 / 2)⟩ :=
  c10_greeks_put_default (fun _ => 1 / 2) (fun _ => 0) 1 1 1 0 1 "xyz"
    (by decide) one_pos

/-- Claim C3: `calculate_implied_volatility` never raises (it is a total
function into `Option`); it returns `none` whenever `T ≤ 0`, or
`market_price ≤ 0`, or `market_price` is strictly below the intrinsic floor
(`max 0 (S - K)` for a call, `max 0 (K - S)` for a put), and it also returns
`none` when both the bracketed search and the Newton-Raphson fallback fail. -/
theorem c3_iv_failure_modes (brentq : (ℝ → Option ℝ) → ℝ → ℝ → ℕ → ℝ → Option ℝ)
    (Phi npdf : ℝ → ℝ) (market_price S K T r : ℝ) (option_type : String)
    (initial_guess : ℝ) (max_iterations : ℕ) (tolerance : ℝ) :
    (T ≤ 0 →
      calculate_implied_volatility brentq Phi npdf market_price S K T r option_type
        initial_guess max_iterations tolerance = none) ∧
    (market_price ≤ 0 →
      calculate_implied_volatility brentq Phi npdf market_price S K T r option_type
        initial_guess max_iterations tolerance = none) ∧
    (option_type = "call" → market_price < max 0 (S - K) →
      calculate_implied_volatility brentq Phi npdf market_price S K T r option_type
        initial_guess max_iterations tolerance = none) ∧
    (option_type = "put" → market_price < max 0 (K - S) →
      calculate_implied_volatility brentq Phi npdf market_price S K T r option_type
        initial_guess max_iterations tolerance = none) ∧
    (brentq (objective Phi market_price S K T r option_type) 0.001 5.0
        max_iterations tolerance = none →
      newtonLoop Phi npdf market_price S K T r option_type tolerance
        max_iterations initial_guess = none →
      calculate_implied_volatility brentq Phi npdf market_price S K T r option_type
        initial_guess max_iterations tolerance = none) := by
  have hpc : ("put" : String) ≠ "call" := by decide
  refine ⟨?_, ?_, ?_, ?_, ?_⟩
  · intro h
    simp [calculate_implied_volatility, h]
  · intro h
    simp [calculate_implied_volatility, h]
  · intro h hlt
    subst h
    by_cases hg : T ≤ 0 ∨ market_price ≤ 0
    · simp [calculate_implied_volatility, hg]
    · simp [calculate_implied_volatility, hg, intrinsic_value, hlt]
  · intro h hlt
    subst h
    by_cases hg : T ≤ 0 ∨ market_price ≤ 0
    · simp [calculate_implied_volatility, hg]
    · simp [calculate_implied_volatility, hg, intrinsic_value, hpc, hlt]
  · intro hbr hnl
    by_cases hg : T ≤ 0 ∨ market_price ≤ 0
    · simp [calculate_implied_volatility, hg]
    · by_cases hfl : market_price < intrinsic_value option_type S K
      · simp [calculate_implied_volatility, hg, hfl]
      · simp [calculate_implied_volatility, searchPhase, hg, hfl, hbr, hnl]

/-- Witness for C3 at `T = -1` (all other inputs concrete). -/
theorem c3_iv_failure_modes_witness :
    calculate_implied_volatility (fun _ _ _ _ _ => none) (fun _ => 1 / 2) (fun _ => 0)
      1 1 1 (-1) 0 "call" 0.3 100 1e-6 = none :=
  (c3_iv_failure_modes (fun _ _ _ _ _ => none) (fun _ => 1 / 2) (fun _ => 0)
    1 1 1 (-1) 0 "call" 0.3 100 1e-6).1 (by norm_num)

/-- Claim C4: the Newton-Raphson fallback starts at `initial_guess`, returns
`sigma` as soon as `|price(sigma) - market_price| < tolerance`, aborts with
`none` when the decimal vega `S·φ(d1)·√T` drops below `1e-10`, otherwise
steps to `sigma - (price(sigma) - market_price) / vega` clamped into
`[0.001, 5.0]`, and returns `none` once the iteration budget is exhausted. -/
theorem c4_newton_fallback (brentq : (ℝ → Option ℝ) → ℝ → ℝ → ℕ → ℝ → Option ℝ)
    (Phi npdf : ℝ → ℝ) (market_price S K T r tolerance : ℝ) (option_type : String)
    (sigma initial_guess : ℝ) (n max_iterations : ℕ) (p : ℝ)
    (hT : 0 < T)
    (hp : (BlackScholesModel.mk S K T r sigma).price Phi option_type = .ok p) :
    newtonLoop Phi npdf market_price S K T r option_type tolerance 0 sigma = none ∧
    newtonLoop Phi npdf market_price S K T r option_type tolerance (n + 1) sigma =
      (if |p - market_price| < tolerance then some sigma
       else if S * npdf ((Greeks.make S K T r sigma option_type).d1) * Real.sqrt T < 1e-10
       then none
       else newtonLoop Phi npdf market_price S K T r option_type tolerance n
         (max 0.001 (min (sigma - (p - market_price) /
            (S * npdf ((Greeks.make S K T r sigma option_type).d1) * Real.sqrt T)) 5.0))) ∧
    (brentq (objective Phi market_price S K T r option_type) 0.001 5.0
        max_iterations tolerance = none →
      searchPhase brentq Phi npdf market_price S K T r option_type initial_guess
        max_iterations tolerance =
      newtonLoop Phi npdf market_price S K T r option_type tolerance
        max_iterations initial_guess) := by
  have hv : (Greeks.make S K T r sigma option_type).vega npdf * 100
      = S * npdf ((Greeks.make S K T r sigma option_type).d1) * Real.sqrt T := by
    simp only [Greeks.vega, Greeks.make, not_le.mpr hT, if_neg, ite_false]
    ring
  refine ⟨rfl, ?_, ?_⟩
  · rw [newtonLoop, hp]
    simp only [hv]
  · intro hbr
    simp [searchPhase, hbr]

/-- Witness for C4 at `S = K = T = 1`, `r = 0`, `sigma = 1`,
`market_price = 1`, zero fuel. -/
theorem c4_newton_fallback_witness :
    newtonLoop (fun _ => 1 / 2) (fun _ => 0) 1 1 1 1 0 "call" 1e-6 0 1 = none := by
  have h := c4_newton_fallback (fun _ _ _ _ _ => none) (fun _ => 1 / 2) (fun _ => 0)
    1 1 1 1 0 1e-6 "call" 1 0.3 0 100
    ((BlackScholesModel.mk 1 1 1 0 1).call_price (fun _ => 1 / 2)) one_pos
    (by simp [BlackScholesModel.price, (show pyLower "call" = "call" by decide)])
  exact h.1

/-- Claim C7: once the precondition guards pass, the solver performs the
bracketed search with the objective on the interval `[0.001, 5.0]`, iteration
bound `max_iterations` and the tolerance as convergence parameter, falling
back to the Newton loop on failure; the Python defaults are
`initial_guess = 0.3`, `max_iterations = 100`, `tolerance = 1e-6`. -/
theorem c7_bracket_parameters (brentq : (ℝ → Option ℝ) → ℝ → ℝ → ℕ → ℝ → Option ℝ)
    (Phi npdf : ℝ → ℝ) (market_price S K T r initial_guess tolerance : ℝ)
    (max_iterations : ℕ) (option_type : String)
    (hg : ¬(T ≤ 0 ∨ market_price ≤ 0))
    (hfloor : ¬ market_price < intrinsic_value option_type S K) :
    calculate_implied_volatility brentq Phi npdf market_price S K T r option_type
      initial_guess max_iterations tolerance =
      (match brentq (objective Phi market_price S K T r option_type) 0.001 5.0
          max_iterations tolerance with
       | some implied_vol => some implied_vol
       | none => newtonLoop Phi npdf market_price S K T r option_type tolerance
           max_iterations initial_guess) ∧
    calculate_implied_volatility_defaults brentq Phi npdf market_price S K T r
        option_type =
      calculate_implied_volatility brentq Phi npdf market_price S K T r option_type
        0.3 100 1e-6 := by
  refine ⟨?_, rfl⟩
  simp [calculate_implied_volatility, searchPhase, hg, hfloor]

/-- Witness for C7 at concrete inputs with a bracketed finder that returns
`some 1`. -/
theorem c7_bracket_parameters_witness :
    calculate_implied_volatility
        (fun (_ : ℝ → Option ℝ) (_ _ : ℝ) (_ : ℕ) (_ : ℝ) => some (1 : ℝ))
        (fun _ => 1 / 2) (fun _ => 0) 1 1 1 1 0 "call" 0.3 100 1e-6 =
      (match (fun (_ : ℝ → Option ℝ) (_ _ : ℝ) (_ : ℕ) (_ : ℝ) => some (1 : ℝ))
          (objective (fun _ => 1 / 2) 1 1 1 1 0 "call") 0.001 5.0 100 1e-6 with
       | some implied_vol => some implied_vol
       | none => newtonLoop (fun _ => 1 / 2) (fun _ => 0) 1 1 1 1 0 "call" 1e-6
           100 0.3) :=
  (c7_bracket_parameters
    (fun (_ : ℝ → Option ℝ) (_ _ : ℝ) (_ : ℕ) (_ : ℝ) => some (1 : ℝ))
    (fun _ => 1 / 2) (fun _ => 0) 1 1 1 1 0 0.3 1e-6 100 "call"
    (by norm_num) (by norm_num [intrinsic_value])).1

/-- Claim C9: for every `option_type` string that denotes a call only after
lowercasing (such as `"Call"` or `"CALL"`: `pyLower option_type = "call"` but
`option_type ≠ "call"`), the solver computes the intrinsic floor with the PUT
formula `max 0 (K - S)` (its equality test is case-sensitive), while the
objective prices the option as a CALL via the lowercasing `price` method; for
`S > K` and `0 < market_price < S - K` such an input passes the precondition
and enters the root search. -/
theorem c9_case_sensitive_floor (brentq : (ℝ → Option ℝ) → ℝ → ℝ → ℕ → ℝ → Option ℝ)
    (Phi npdf : ℝ → ℝ) (market_price S K T r initial_guess tolerance : ℝ)
    (max_iterations : ℕ) (option_type : String)
    (hlow : pyLower option_type = "call") (hne : option_type ≠ "call")
    (hT : 0 < T) (hmp : 0 < market_price) (hlt : market_price < S - K) :
    intrinsic_value option_type S K = max 0 (K - S) ∧
    (∀ sigma, (BlackScholesModel.mk S K T r sigma).price Phi option_type =
      .ok ((BlackScholesModel.mk S K T r sigma).call_price Phi)) ∧
    calculate_implied_volatility brentq Phi npdf market_price S K T r option_type
      initial_guess max_iterations tolerance =
      searchPhase brentq Phi npdf market_price S K T r option_type
        initial_guess max_iterations tolerance := by
  have hg : ¬(T ≤ 0 ∨ market_price ≤ 0) := by
    push_neg
    exact ⟨hT, hmp⟩
  have hfloor : ¬ market_price < intrinsic_value option_type S K := by
    simp only [intrinsic_value, if_neg hne]
    rw [max_eq_left (by linarith : K - S ≤ 0)]
    exact not_lt.mpr hmp.le
  refine ⟨by simp [intrinsic_value, hne], ?_, ?_⟩
  · intro sigma
    simp [BlackScholesModel.price, hlow]
  · simp [calculate_implied_volatility, hg, hfloor]

/-- Witness for C9 at `S = 100`, `K = 50`, `T = 0.25`, `r = 0.05`,
`market_price = 1`, side `"Call"`. -/
theorem c9_case_sensitive_floor_witness :
    calculate_implied_volatility (fun _ _ _ _ _ => none) (fun _ => 1 / 2) (fun _ => 0)
      1 100 50 0.25 0.05 "Call" 0.3 100 1e-6 =
      searchPhase (fun _ _ _ _ _ => none) (fun _ => 1 / 2) (fun _ => 0)
        1 100 50 0.25 0.05 "Call" 0.3 100 1e-6 :=
  (c9_case_sensitive_floor (fun _ _ _ _ _ => none) (fun _ => 1 / 2) (fun _ => 0)
    1 100 50 0.25 0.05 0.3 1e-6 100 "Call" (by decide) (by decide)
    (by norm_num) (by norm_num) (by norm_num)).2.2

end OptionsPlatform
